import Mathlib

/-!
Shallow embedding of the YugabyteDB RPC `Messenger` (yb/rpc/messenger.cc)
and proofs about its routing, registry, fault-injection and shutdown logic.

Machine integers are modelled as `Nat` with explicit `% 2^32` where the C++
code performs `uint32_t` arithmetic.  External collaborators (the boost hash
of an endpoint, thread identities, the `rand()` draw) are passed in as
explicit parameters.  Side effects (scheduling a reactor task, responding to
a call, shutting components down) are reified as values returned alongside
the new messenger state.
-/

namespace YbRpc

/-- IP address, abstracted to a natural number identity. -/
abbrev IpAddress := Nat

/-- A remote endpoint: an address plus a port (`yb::Endpoint`). -/
structure Endpoint where
  address : IpAddress
  port : Nat
deriving DecidableEq, Repr

/-- One reactor: its construction index `i` and the id of the dedicated
thread it runs on (used by `IsCurrentThread`). -/
structure Reactor where
  idx : Nat
  tid : Nat
deriving DecidableEq, Repr

/-- `yb::Status`, restricted to the codes the embedded operations produce. -/
inductive Status where
  | ok
  | alreadyPresent (msg : String)
  | serviceUnavailable (msg : String)
  | networkError (msg : String)
  | aborted (msg : String)
  | illegalState (msg : String)
deriving DecidableEq, Repr

/-- A delayed task handle (`DelayedTask`): carries the id it was created
with.  The callback itself is opaque; aborting is reified as an effect. -/
structure DelayedTask where
  id : Int
deriving DecidableEq, Repr

/-- The messenger state: the fields of `class Messenger` that the verified
operations read or write.  `rpc_services` is the registry map and
`rpc_services_cache` its published read-optimized snapshot; both are
association lists from service name to an opaque service handle. -/
structure Messenger where
  name : String
  reactors : List Reactor
  closing : Bool
  rpc_services : List (String × Nat)
  rpc_services_cache : List (String × Nat)
  broken_connectivity : List IpAddress
  has_broken_connectivity : Bool
  scheduled_tasks : List (Int × DelayedTask)
  next_task_id : Int
  acceptorPresent : Bool
deriving DecidableEq, Repr

/-- Key membership in an association list (`ContainsKey` / map lookup). -/
def mapContains (m : List (String × Nat)) (k : String) : Bool :=
  m.any (fun p => p.1 == k)

/-- Lookup in an association list (`find` on the services map). -/
def mapLookup (m : List (String × Nat)) (k : String) : Option Nat :=
  match m with
  | [] => none
  | p :: rest => if p.1 == k then some p.2 else mapLookup rest k

/-- `map.erase(k)`: remove every entry with key `k`. -/
def mapErase (m : List (String × Nat)) (k : String) : List (String × Nat) :=
  match m with
  | [] => []
  | p :: rest => if p.1 == k then mapErase rest k else p :: mapErase rest k

/-- Lookup of a task id in the `scheduled_tasks_` map. -/
def taskLookup (m : List (Int × DelayedTask)) (k : Int) : Option DelayedTask :=
  match m with
  | [] => none
  | p :: rest => if p.1 == k then some p.2 else taskLookup rest k

/-- `scheduled_tasks_.erase(id)`. -/
def taskErase (m : List (Int × DelayedTask)) (k : Int) : List (Int × DelayedTask) :=
  match m with
  | [] => []
  | p :: rest => if p.1 == k then taskErase rest k else p :: taskErase rest k

/-- 2^32, the modulus of `uint32_t` arithmetic. -/
def u32 : Nat := 4294967296

/-- `Messenger::RemoteToReactor(remote, idx)`.  The C++ computes
`uint32_t hashCode = hash_value(remote)` (the 64-bit boost hash truncated
to 32 bits) and `int reactor_idx = (hashCode + idx) % reactors_.size()`
where `hashCode + idx` is `uint32_t` addition, i.e. wraps modulo 2^32;
it returns `reactors_[reactor_idx]`.  The hash function is an external
collaborator and is passed in as `hash`. -/
def RemoteToReactor (hash : Endpoint → Nat) (m : Messenger) (remote : Endpoint)
    (idx : Nat) : Option Reactor :=
  let hashCode := hash remote % u32
  let reactor_idx := (hashCode + idx % u32) % u32 % m.reactors.length
  m.reactors.get? reactor_idx

/-- `Messenger::IsArtificiallyDisconnectedFrom(remote)`: fast-path check of
the `has_broken_connectivity_` flag, then membership in
`broken_connectivity_` under the read lock. -/
def IsArtificiallyDisconnectedFrom (m : Messenger) (remote : IpAddress) : Bool :=
  if m.has_broken_connectivity then m.broken_connectivity.contains remote
  else false

/-- `Messenger::BreakConnectivityWith(address)`.  Under the lock: if the
broken set is empty, store `true` into the flag; then insert the address.
If the insert actually added it, a `CountDownLatch(reactors_.size())` is
created and a drop task is scheduled on every reactor; the caller then
waits on the latch.  The second component is `some n` when a latch of
count `n` was created (and a drop task scheduled per reactor), `none`
when the address was already marked. -/
def BreakConnectivityWith (m : Messenger) (address : IpAddress) :
    Messenger × Option Nat :=
  let flag := if m.broken_connectivity.isEmpty then true
              else m.has_broken_connectivity
  if m.broken_connectivity.contains address then
    ({ m with has_broken_connectivity := flag }, none)
  else
    ({ m with has_broken_connectivity := flag,
              broken_connectivity := address :: m.broken_connectivity },
     some m.reactors.length)

/-- `Messenger::RestoreConnectivityWith(address)`: erase the address and,
if the set became empty, store `false` into the flag. -/
def RestoreConnectivityWith (m : Messenger) (address : IpAddress) : Messenger :=
  let bc := m.broken_connectivity.filter (fun a => a ≠ address)
  { m with broken_connectivity := bc,
           has_broken_connectivity :=
             if bc.isEmpty then false else m.has_broken_connectivity }

/-- `Messenger::RegisterService(service_name, service)`: insert if the name
is not yet a key, republish the snapshot and return OK; otherwise return
`AlreadyPresent` and change nothing. -/
def RegisterService (m : Messenger) (service_name : String) (service : Nat) :
    Messenger × Status :=
  if mapContains m.rpc_services service_name then
    (m, Status.alreadyPresent
      ("Service " ++ service_name ++ " is already present"))
  else
    let services := (service_name, service) :: m.rpc_services
    ({ m with rpc_services := services, rpc_services_cache := services },
     Status.ok)

/-- `Messenger::UnregisterService(service_name)`: if erasing removed an
entry, republish the snapshot and return OK; otherwise return
`ServiceUnavailable` and change nothing. -/
def UnregisterService (m : Messenger) (service_name : String) :
    Messenger × Status :=
  if mapContains m.rpc_services service_name then
    let services := mapErase m.rpc_services service_name
    ({ m with rpc_services := services, rpc_services_cache := services },
     Status.ok)
  else
    (m, Status.serviceUnavailable
      ("service " ++ service_name ++ " not registered on " ++ m.name))

/-- `Messenger::UnregisterAllServices()`: swap the registry with an empty
map and republish the (now empty) snapshot; always OK. -/
def UnregisterAllServices (m : Messenger) : Messenger × Status :=
  ({ m with rpc_services := [], rpc_services_cache := [] }, Status.ok)

/-- `Messenger::rpc_service(service_name)`: lookup in the published
snapshot `rpc_services_cache_`, not in the locked registry. -/
def rpc_service (m : Messenger) (service_name : String) : Option Nat :=
  mapLookup m.rpc_services_cache service_name

/-- An inbound call: the service name it addresses. -/
structure InboundCall where
  service_name : String
deriving DecidableEq, Repr

/-- Error codes of `ErrorStatusPB` used here. -/
inductive ErrorCode where
  | ERROR_NO_SUCH_SERVICE
deriving DecidableEq, Repr

/-- What `QueueInboundCall` / `Handle` did with an inbound call. -/
inductive InboundOutcome where
  /-- `call->RespondFailure(code, status)` was invoked; no handler ran. -/
  | respondFailure (code : ErrorCode) (s : Status)
  /-- `service->QueueInboundCall(call)` was invoked on the named handler. -/
  | queuedToService (service : Nat)
  /-- `service->Handle(call)` was invoked on the named handler. -/
  | handledByService (service : Nat)
deriving DecidableEq, Repr

/-- The `ServiceUnavailable` status built by `QueueInboundCall`/`Handle`
for an unregistered service (`STATUS_FORMAT(ServiceUnavailable,
"Service $0 not registered on $1", call->service_name(), name_)`). -/
def noSuchServiceStatus (m : Messenger) (call : InboundCall) : Status :=
  Status.serviceUnavailable
    ("Service " ++ call.service_name ++ " not registered on " ++ m.name)

/-- `Messenger::QueueInboundCall(call)`. -/
def QueueInboundCall (m : Messenger) (call : InboundCall) : InboundOutcome :=
  match rpc_service m call.service_name with
  | none => InboundOutcome.respondFailure ErrorCode.ERROR_NO_SUCH_SERVICE
      (noSuchServiceStatus m call)
  | some service => InboundOutcome.queuedToService service

/-- `Messenger::Handle(call)`. -/
def Handle (m : Messenger) (call : InboundCall) : InboundOutcome :=
  match rpc_service m call.service_name with
  | none => InboundOutcome.respondFailure ErrorCode.ERROR_NO_SUCH_SERVICE
      (noSuchServiceStatus m call)
  | some service => InboundOutcome.handledByService service

/-- A `ConnectionId`: remote endpoint plus the index choosing among the
parallel connections to that remote. -/
structure ConnectionId where
  remote : Endpoint
  idx : Nat
deriving DecidableEq, Repr

/-- An outbound call: its connection id. -/
structure OutboundCall where
  conn_id : ConnectionId
deriving DecidableEq, Repr

/-- What `Messenger::QueueOutboundCall` did with the call. -/
inductive OutboundOutcome where
  /-- `reactor->ScheduleReactorTask(...)` with a functor task that runs
  `call->Transferred(status, nullptr)` on the reactor thread; no socket
  operation toward the remote is ever attempted. -/
  | scheduledFailTask (reactor : Reactor) (s : Status)
  /-- `reactor->QueueOutboundCall(call)`. -/
  | queuedOnReactor (reactor : Reactor)
  /-- No reactor exists (empty reactor list; unreachable for a built
  messenger, whose reactor count is at least 1). -/
  | noReactor
deriving DecidableEq, Repr

/-- Whether the outcome involves a reactor thread at all: both scheduling
the fail task and queueing the call hand work to a reactor. -/
def touchesReactorThread : OutboundOutcome → Bool
  | OutboundOutcome.scheduledFailTask _ _ => true
  | OutboundOutcome.queuedOnReactor _ => true
  | OutboundOutcome.noReactor => false

/-- `Messenger::QueueOutboundCall(call)`: pick the reactor via
`RemoteToReactor(remote, idx)`; if the remote address is artificially
disconnected, schedule a reactor task that fails the call with
`STATUS(NetworkError, "TEST: Connectivity is broken")` via `Transferred`;
otherwise queue the call on that reactor. -/
def QueueOutboundCall (hash : Endpoint → Nat) (m : Messenger)
    (call : OutboundCall) : OutboundOutcome :=
  match RemoteToReactor hash m call.conn_id.remote call.conn_id.idx with
  | none => OutboundOutcome.noReactor
  | some reactor =>
    if IsArtificiallyDisconnectedFrom m call.conn_id.remote.address then
      OutboundOutcome.scheduledFailTask reactor
        (Status.networkError "TEST: Connectivity is broken")
    else
      OutboundOutcome.queuedOnReactor reactor

/-- What `Messenger::AbortOnReactor(task_id)` did. -/
inductive AbortOutcome where
  /-- `CHECK_NE(task_id, -1)` failed: the process aborts instead of
  returning. -/
  | checkFailed
  /-- The task was found: `task->AbortTask(STATUS(Aborted, "Task aborted
  by messenger"))` ran and the entry was erased. -/
  | abortedTask (t : DelayedTask) (s : Status)
  /-- The id was not in the map: nothing happened. -/
  | noop
deriving DecidableEq, Repr

/-- `Messenger::AbortOnReactor(task_id)`: `CHECK_NE(task_id, -1)`, then
look the id up in `scheduled_tasks_`; if present, abort the task with an
Aborted status and erase the entry; otherwise do nothing. -/
def AbortOnReactor (m : Messenger) (task_id : Int) : Messenger × AbortOutcome :=
  if task_id == -1 then (m, AbortOutcome.checkFailed)
  else
    match taskLookup m.scheduled_tasks task_id with
    | some t =>
      ({ m with scheduled_tasks := taskErase m.scheduled_tasks task_id },
       AbortOutcome.abortedTask t (Status.aborted "Task aborted by messenger"))
    | none => (m, AbortOutcome.noop)

/-- The reactor-choice loop of `ScheduleOnReactor`: iterate over the
reactors and keep the last one whose `IsCurrentThread()` is true (the C++
loop overwrites `chosen` without breaking). -/
def pickCurrentReactor (reactors : List Reactor) (curTid : Nat) : Option Reactor :=
  reactors.foldl (fun chosen r => if r.tid == curTid then some r else chosen) none

/-- `Messenger::ScheduleOnReactor(func, when, msgr)`.  `curTid` is the id
of the calling thread and `randv` the value drawn by `rand()`; both are
external inputs.  `hasOwner` is whether `msgr != nullptr`.  Returns the
new messenger state, the returned task id, and the reactor whose
`ScheduleReactorTask` received the delayed task. -/
def ScheduleOnReactor (m : Messenger) (curTid : Nat) (randv : Nat)
    (hasOwner : Bool) : Messenger × Int × Option Reactor :=
  let chosen :=
    match pickCurrentReactor m.reactors curTid with
    | some r => some r
    | none => m.reactors.get? (randv % m.reactors.length)
  let task_id : Int := if hasOwner then m.next_task_id else 0
  let task : DelayedTask := { id := task_id }
  let m' :=
    if hasOwner then
      { m with next_task_id := m.next_task_id + 1,
               scheduled_tasks := (task_id, task) :: m.scheduled_tasks }
    else m
  (m', task_id, chosen)

/-- The side effects of a full `Messenger::Shutdown()` run, in program
order. -/
inductive ShutdownAction where
  | acceptorShutdown
  | reactorShutdown (idx : Nat)
  | schedulerShutdown
  | ioThreadPoolShutdown
  | reactorJoin (idx : Nat)
  | ioThreadPoolJoin
deriving DecidableEq, Repr

/-- `Messenger::Shutdown()`: under the lock, return immediately if
`closing_` is already set; otherwise set it, clear the registry and
detach the acceptor and the reactor list; outside the lock, shut down the
acceptor, every reactor, the scheduler and the IO thread pool, then join
the reactors and the pool.  The action list records the work done outside
the lock; a short-circuited call produces the empty list. -/
def Shutdown (m : Messenger) : Messenger × List ShutdownAction :=
  if m.closing then (m, [])
  else
    let m' := { m with closing := true, rpc_services := [],
                       acceptorPresent := false }
    let acts :=
      (if m.acceptorPresent then [ShutdownAction.acceptorShutdown] else [])
      ++ m.reactors.map (fun r => ShutdownAction.reactorShutdown r.idx)
      ++ [ShutdownAction.schedulerShutdown, ShutdownAction.ioThreadPoolShutdown]
      ++ m.reactors.map (fun r => ShutdownAction.reactorJoin r.idx)
      ++ [ShutdownAction.ioThreadPoolJoin]
    (m', acts)

/-- `n` serialized `Shutdown()` calls (the lock serializes the
check-and-set of `closing_`): final state and how many of the calls ran
the full shutdown sequence (i.e. produced a non-empty action list). -/
def shutdownTimes (m : Messenger) : Nat → Messenger × Nat
  | 0 => (m, 0)
  | n + 1 =>
    let step := Shutdown m
    let rest := shutdownTimes step.1 n
    (rest.1, (if step.2.isEmpty then 0 else 1) + rest.2)

/-- State of one `BreakConnectivityWith` rendezvous: which reactors still
have their drop task pending, the latch value, and whether the blocked
caller has returned from `latch->Wait()`. -/
structure BreakState where
  pending : List Bool
  latch : Nat
  returned : Bool
deriving DecidableEq, Repr

/-- The rendezvous state right after `BreakConnectivityWith` scheduled one
drop task per reactor and created `CountDownLatch(n)`. -/
def breakInit (n : Nat) : BreakState :=
  { pending := List.replicate n true, latch := n, returned := false }

/-- Interleaving semantics of the rendezvous: a reactor may execute its
pending drop task (dropping connections to the address, then
`latch->CountDown()`), and the caller may return from `latch->Wait()`
only once the latch reached zero. -/
inductive BreakStep : BreakState → BreakState → Prop
  | exec (s : BreakState) (i : Nat) (h : s.pending.get? i = some true) :
      BreakStep s { pending := s.pending.set i false, latch := s.latch - 1,
                    returned := s.returned }
  | ret (s : BreakState) (h : s.latch = 0) :
      BreakStep s { pending := s.pending, latch := s.latch, returned := true }

/-- Reachability under the rendezvous semantics. -/
def BreakReach : BreakState → BreakState → Prop :=
  Relation.ReflTransGen BreakStep

/-- The flag invariant of the fault-injection state: the fast-path flag is
set exactly when the broken set is non-empty. -/
def flagInvariant (m : Messenger) : Prop :=
  m.has_broken_connectivity = !m.broken_connectivity.isEmpty

instance (m : Messenger) : Decidable (flagInvariant m) := by
  unfold flagInvariant; infer_instance

/-- Concrete three-reactor list used to evaluate the model. -/
def exReactors : List Reactor :=
  [{ idx := 0, tid := 100 }, { idx := 1, tid := 101 }, { idx := 2, tid := 102 }]

/-- A concrete freshly built messenger with three reactors. -/
def mEx : Messenger :=
  { name := "test-messenger", reactors := exReactors, closing := false,
    rpc_services := [], rpc_services_cache := [], broken_connectivity := [],
    has_broken_connectivity := false, scheduled_tasks := [], next_task_id := 0,
    acceptorPresent := true }

/-- `mEx` with address 7 marked artificially unreachable. -/
def mBroken : Messenger :=
  { mEx with broken_connectivity := [7], has_broken_connectivity := true }

/-- `mEx` with one registered service named "S". -/
def mSvc : Messenger :=
  { mEx with rpc_services := [("S", 1)], rpc_services_cache := [("S", 1)] }

/-- `mEx` with one scheduled task of id 0. -/
def mTask : Messenger :=
  { mEx with scheduled_tasks := [(0, { id := 0 })], next_task_id := 1 }

/-- Invariant of the rendezvous: the latch always counts the still
pending drop tasks, and a returned caller saw the latch at zero. -/
def breakInv (s : BreakState) : Prop :=
  s.latch = s.pending.count true ∧ (s.returned = true → s.latch = 0)

/-- After erasing a key, the key is no longer contained. -/
theorem mapContains_mapErase (l : List (String × Nat)) (k : String) :
    mapContains (mapErase l k) k = false := by
  induction l with
  | nil => rfl
  | cons p rest ih =>
    cases hpk : p.1 == k with
    | true => simpa [mapErase, hpk] using ih
    | false =>
      simp only [mapErase, hpk, Bool.false_eq_true, if_false]
      simp only [mapContains, List.any_cons, hpk, Bool.false_or]
      simpa [mapContains] using ih

/-- After erasing a task id, lookup of that id misses. -/
theorem taskLookup_taskErase (l : List (Int × DelayedTask)) (k : Int) :
    taskLookup (taskErase l k) k = none := by
  induction l with
  | nil => rfl
  | cons p rest ih =>
    cases hpk : p.1 == k with
    | true => simpa [taskErase, hpk] using ih
    | false =>
      simp only [taskErase, hpk, Bool.false_eq_true, if_false]
      simp only [taskLookup, hpk, Bool.false_eq_true, if_false]
      exact ih

/-- Every key of the scheduled-task map below the counter means the
counter value itself is absent. -/
theorem taskLookup_none_of_bound (l : List (Int × DelayedTask)) (k : Int)
    (h : ∀ p ∈ l, p.1 < k) : taskLookup l k = none := by
  induction l with
  | nil => rfl
  | cons p rest ih =>
    have hp : p.1 < k := h p (List.mem_cons_self p rest)
    have hne : (p.1 == k) = false := by
      simp only [beq_eq_false_iff_ne, ne_eq]
      omega
    simp only [taskLookup, hne, Bool.false_eq_true, if_false]
    exact ih fun q hq => h q (List.mem_cons_of_mem p hq)

/-- C1: the claim reads the position as the mathematical sum
`hash remote + idx` modulo N, but the C++ sum is `uint32_t` addition and
wraps modulo 2^32 first.  With 3 reactors, a hash of 2^32 - 1 and
index 1, the code selects reactor 0 while the claimed position
(2^32 - 1 + 1) mod 3 = 1 names reactor 1. -/
theorem C1_counterexample :
    RemoteToReactor (fun _ => 4294967295) mEx { address := 0, port := 0 } 1 ≠
      mEx.reactors.get? ((4294967295 + 1) % mEx.reactors.length) := by
  decide

/-- C1 (amended): for every reactor count N ≥ 1, `RemoteToReactor` is a
pure function of the (remote, idx) pair — repeated calls return the same
reactor — and the selected reactor is the one at position
((hash of the remote mod 2^32) + (idx mod 2^32), taken mod 2^32) mod N in
the construction-order reactor list. -/
theorem C1_routing_deterministic (hash : Endpoint → Nat) (m : Messenger)
    (remote : Endpoint) (idx : Nat) (hN : 1 ≤ m.reactors.length) :
    ∃ hlt : (hash remote % u32 + idx % u32) % u32 % m.reactors.length
              < m.reactors.length,
      RemoteToReactor hash m remote idx
          = some (m.reactors.get
              ⟨(hash remote % u32 + idx % u32) % u32 % m.reactors.length, hlt⟩)
        ∧ RemoteToReactor hash m remote idx
            = RemoteToReactor hash m remote idx := by
  have hlt : (hash remote % u32 + idx % u32) % u32 % m.reactors.length
      < m.reactors.length := Nat.mod_lt _ (by omega)
  exact ⟨hlt, by simp [RemoteToReactor, List.get?_eq_get hlt], rfl⟩

/-- C1 witness: the amended routing formula evaluated on the concrete
three-reactor messenger, hash 5 and index 2, selecting position
(5 + 2) % 3 = 1. -/
theorem C1_routing_deterministic_witness :
    1 ≤ mEx.reactors.length ∧
    ∃ hlt : (5 % u32 + 2 % u32) % u32 % mEx.reactors.length
              < mEx.reactors.length,
      RemoteToReactor (fun e => e.address) mEx { address := 5, port := 0 } 2
          = some (mEx.reactors.get
              ⟨(5 % u32 + 2 % u32) % u32 % mEx.reactors.length, hlt⟩)
        ∧ RemoteToReactor (fun e => e.address) mEx { address := 5, port := 0 } 2
            = RemoteToReactor (fun e => e.address) mEx { address := 5, port := 0 } 2 :=
  ⟨by decide,
   C1_routing_deterministic (fun e => e.address) mEx { address := 5, port := 0 } 2
     (by decide)⟩

/-- C10: when the fast-path flag equals non-emptiness of the broken set,
both `BreakConnectivityWith` and `RestoreConnectivityWith` preserve that
equivalence, and `IsArtificiallyDisconnectedFrom` answers exactly
membership in the broken set — the short-circuit never misreports. -/
theorem C10_flag_invariant (m : Messenger) (a r : IpAddress)
    (hinv : flagInvariant m) :
    flagInvariant (BreakConnectivityWith m a).1 ∧
    flagInvariant (RestoreConnectivityWith m a) ∧
    IsArtificiallyDisconnectedFrom m r = m.broken_connectivity.contains r := by
  obtain ⟨nm, rs, cl, svc, cache, bc, fl, tasks, ntid, acc⟩ := m
  unfold flagInvariant at hinv
  simp only at hinv
  refine ⟨?_, ?_, ?_⟩
  · cases bc with
    | nil => simp [flagInvariant, BreakConnectivityWith]
    | cons x xs =>
      simp only [List.isEmpty_cons, Bool.not_false] at hinv
      simp only [flagInvariant, BreakConnectivityWith, List.isEmpty_cons]
      split <;> simp [hinv]
  · cases bc with
    | nil => simp [flagInvariant, RestoreConnectivityWith]
    | cons x xs =>
      simp only [List.isEmpty_cons, Bool.not_false] at hinv
      simp only [flagInvariant, RestoreConnectivityWith]
      cases hfe : ((x :: xs).filter (fun y => decide (y ≠ a))).isEmpty <;>
        simp [hfe, hinv]
  · cases hf : fl with
    | true => simp [IsArtificiallyDisconnectedFrom]
    | false =>
      rw [hf] at hinv
      cases bc with
      | nil => simp [IsArtificiallyDisconnectedFrom]
      | cons x xs => simp at hinv

/-- C10 witness: the invariant holds for the fresh messenger (empty set,
flag clear), is preserved by breaking and restoring address 7, and the
membership check on address 7 agrees with the set. -/
theorem C10_flag_invariant_witness :
    flagInvariant mEx ∧
    (flagInvariant (BreakConnectivityWith mEx 7).1 ∧
     flagInvariant (RestoreConnectivityWith mEx 7) ∧
     IsArtificiallyDisconnectedFrom mEx 7 = mEx.broken_connectivity.contains 7) :=
  ⟨by decide, C10_flag_invariant mEx 7 7 (by decide)⟩

/-- C4: `RegisterService` returns `AlreadyPresent` and changes nothing
when the name is registered (state `m₁`); when absent (state `m₂`) it
inserts the mapping, republishes the snapshot and returns OK; and a
second registration of the same name without an intervening unregister
fails with `AlreadyPresent`, leaving the state of the first registration
intact. -/
theorem C4_register_service (m₁ m₂ : Messenger) (svcName : String)
    (s₁ s₂ s₃ : Nat)
    (hpres : mapContains m₁.rpc_services svcName = true)
    (habs : mapContains m₂.rpc_services svcName = false) :
    RegisterService m₁ svcName s₁ =
      (m₁, Status.alreadyPresent ("Service " ++ svcName ++ " is already present")) ∧
    ((RegisterService m₂ svcName s₂).2 = Status.ok ∧
     (RegisterService m₂ svcName s₂).1.rpc_services
        = (svcName, s₂) :: m₂.rpc_services ∧
     (RegisterService m₂ svcName s₂).1.rpc_services_cache
        = (svcName, s₂) :: m₂.rpc_services) ∧
    ((RegisterService (RegisterService m₂ svcName s₂).1 svcName s₃).2
        = Status.alreadyPresent ("Service " ++ svcName ++ " is already present") ∧
     (RegisterService (RegisterService m₂ svcName s₂).1 svcName s₃).1
        = (RegisterService m₂ svcName s₂).1) := by
  have hsecond : mapContains
      (RegisterService m₂ svcName s₂).1.rpc_services svcName = true := by
    simp only [RegisterService, habs, Bool.false_eq_true, if_false]
    simp [mapContains, List.any_cons]
  refine ⟨?_, ?_, ?_⟩
  · simp [RegisterService, hpres]
  · simp [RegisterService, habs]
  · constructor <;> simp [RegisterService, hsecond] <;>
      simp [RegisterService, habs] at hsecond ⊢ <;> simp [hsecond]

/-- C4 witness: registering "S" on a messenger that already has it fails
with `AlreadyPresent` and leaves it unchanged; on a fresh messenger it
succeeds, and the immediate re-registration fails. -/
theorem C4_register_service_witness :
    RegisterService mSvc "S" 2 =
      (mSvc, Status.alreadyPresent "Service S is already present") ∧
    ((RegisterService mEx "S" 1).2 = Status.ok ∧
     (RegisterService mEx "S" 1).1.rpc_services = [("S", 1)] ∧
     (RegisterService mEx "S" 1).1.rpc_services_cache = [("S", 1)]) ∧
    ((RegisterService (RegisterService mEx "S" 1).1 "S" 2).2
        = Status.alreadyPresent "Service S is already present" ∧
     (RegisterService (RegisterService mEx "S" 1).1 "S" 2).1
        = (RegisterService mEx "S" 1).1) :=
  C4_register_service mSvc mEx "S" 2 1 2 (by decide) (by decide)

/-- C5: `UnregisterService` fails with `ServiceUnavailable` and changes
nothing when the name is absent (state `m₁`); when present (state `m₂`)
it removes the entry, republishes the snapshot and returns OK; and
`UnregisterAllServices` empties the registry and its snapshot. -/
theorem C5_unregister_service (m₁ m₂ : Messenger) (svcName : String)
    (habs : mapContains m₁.rpc_services svcName = false)
    (hpres : mapContains m₂.rpc_services svcName = true) :
    UnregisterService m₁ svcName =
      (m₁, Status.serviceUnavailable
        ("service " ++ svcName ++ " not registered on " ++ m₁.name)) ∧
    ((UnregisterService m₂ svcName).2 = Status.ok ∧
     (UnregisterService m₂ svcName).1.rpc_services
        = mapErase m₂.rpc_services svcName ∧
     (UnregisterService m₂ svcName).1.rpc_services_cache
        = mapErase m₂.rpc_services svcName ∧
     mapContains (UnregisterService m₂ svcName).1.rpc_services svcName
        = false) ∧
    ((UnregisterAllServices m₂).1.rpc_services = [] ∧
     (UnregisterAllServices m₂).1.rpc_services_cache = [] ∧
     (UnregisterAllServices m₂).2 = Status.ok) := by
  refine ⟨?_, ?_, ?_⟩
  · simp [UnregisterService, habs]
  · simp [UnregisterService, hpres, mapContains_mapErase]
  · simp [UnregisterAllServices]

/-- C5 witness: unregistering "S" on a fresh messenger fails with
`ServiceUnavailable`; on a messenger holding "S" it removes the entry,
and `UnregisterAllServices` leaves both maps empty. -/
theorem C5_unregister_service_witness :
    UnregisterService mEx "S" =
      (mEx, Status.serviceUnavailable
        "service S not registered on test-messenger") ∧
    ((UnregisterService mSvc "S").2 = Status.ok ∧
     (UnregisterService mSvc "S").1.rpc_services = mapErase mSvc.rpc_services "S" ∧
     (UnregisterService mSvc "S").1.rpc_services_cache
        = mapErase mSvc.rpc_services "S" ∧
     mapContains (UnregisterService mSvc "S").1.rpc_services "S" = false) ∧
    ((UnregisterAllServices mSvc).1.rpc_services = [] ∧
     (UnregisterAllServices mSvc).1.rpc_services_cache = [] ∧
     (UnregisterAllServices mSvc).2 = Status.ok) :=
  C5_unregister_service mEx mSvc "S" (by decide) (by decide)

/-- C6: both `QueueInboundCall` and `Handle` look the call's service name
up in the published snapshot; when absent the call is failed via
`RespondFailure` with a `ServiceUnavailable` status whose message names
the missing service, and no handler runs; when present the call is handed
to the registered service. -/
theorem C6_inbound_dispatch (m₁ m₂ : Messenger) (c₁ c₂ : InboundCall)
    (service : Nat)
    (hmiss : rpc_service m₁ c₁.service_name = none)
    (hhit : rpc_service m₂ c₂.service_name = some service) :
    (QueueInboundCall m₁ c₁ = InboundOutcome.respondFailure
        ErrorCode.ERROR_NO_SUCH_SERVICE (noSuchServiceStatus m₁ c₁) ∧
     Handle m₁ c₁ = InboundOutcome.respondFailure
        ErrorCode.ERROR_NO_SUCH_SERVICE (noSuchServiceStatus m₁ c₁) ∧
     noSuchServiceStatus m₁ c₁ = Status.serviceUnavailable
        ("Service " ++ c₁.service_name ++ " not registered on " ++ m₁.name)) ∧
    (QueueInboundCall m₂ c₂ = InboundOutcome.queuedToService service ∧
     Handle m₂ c₂ = InboundOutcome.handledByService service) := by
  refine ⟨⟨?_, ?_, rfl⟩, ?_, ?_⟩ <;>
    simp [QueueInboundCall, Handle, hmiss, hhit]

/-- C6 witness: a call to "S" on the fresh messenger is failed with the
`ServiceUnavailable` status naming "S"; on the messenger with "S"
registered it is handed to handler 1. -/
theorem C6_inbound_dispatch_witness :
    (QueueInboundCall mEx { service_name := "S" }
        = InboundOutcome.respondFailure ErrorCode.ERROR_NO_SUCH_SERVICE
            (noSuchServiceStatus mEx { service_name := "S" }) ∧
     Handle mEx { service_name := "S" }
        = InboundOutcome.respondFailure ErrorCode.ERROR_NO_SUCH_SERVICE
            (noSuchServiceStatus mEx { service_name := "S" }) ∧
     noSuchServiceStatus mEx { service_name := "S" }
        = Status.serviceUnavailable "Service S not registered on test-messenger") ∧
    (QueueInboundCall mSvc { service_name := "S" }
        = InboundOutcome.queuedToService 1 ∧
     Handle mSvc { service_name := "S" }
        = InboundOutcome.handledByService 1) :=
  C6_inbound_dispatch mEx mSvc { service_name := "S" } { service_name := "S" } 1
    (by decide) (by decide)

/-- C3: the claim says an artificially unreachable remote is failed
"without touching any Reactor thread", but the code fails it by
scheduling a functor task on the reactor chosen by `RemoteToReactor`,
which runs `Transferred` on that reactor's thread.  On the concrete
broken messenger the outcome does involve a reactor. -/
theorem C3_counterexample :
    IsArtificiallyDisconnectedFrom mBroken 7 = true ∧
    touchesReactorThread (QueueOutboundCall (fun e => e.address) mBroken
      { conn_id := { remote := { address := 7, port := 9 }, idx := 0 } })
      ≠ false := by
  decide

/-- C3 (amended): for a remote currently marked artificially unreachable
the call is failed with a `NetworkError` status delivered through
`Transferred` by a functor task scheduled on the reactor selected by
`RemoteToReactor` (so no socket operation toward the remote is ever
attempted, though the failure does run on that reactor's thread); for an
unmarked remote the call is enqueued on the selected reactor. -/
theorem C3_outbound_call_routing (hash : Endpoint → Nat) (m₁ m₂ : Messenger)
    (c₁ c₂ : OutboundCall)
    (hbroken : IsArtificiallyDisconnectedFrom m₁ c₁.conn_id.remote.address = true)
    (hN₁ : 1 ≤ m₁.reactors.length)
    (hok : IsArtificiallyDisconnectedFrom m₂ c₂.conn_id.remote.address = false)
    (hN₂ : 1 ≤ m₂.reactors.length) :
    (∃ r, RemoteToReactor hash m₁ c₁.conn_id.remote c₁.conn_id.idx = some r ∧
      QueueOutboundCall hash m₁ c₁ = OutboundOutcome.scheduledFailTask r
        (Status.networkError "TEST: Connectivity is broken")) ∧
    (∃ r, RemoteToReactor hash m₂ c₂.conn_id.remote c₂.conn_id.idx = some r ∧
      QueueOutboundCall hash m₂ c₂ = OutboundOutcome.queuedOnReactor r) := by
  have hlt₁ : (hash c₁.conn_id.remote % u32 + c₁.conn_id.idx % u32) % u32
      % m₁.reactors.length < m₁.reactors.length := Nat.mod_lt _ (by omega)
  have hlt₂ : (hash c₂.conn_id.remote % u32 + c₂.conn_id.idx % u32) % u32
      % m₂.reactors.length < m₂.reactors.length := Nat.mod_lt _ (by omega)
  have hs₁ : ∃ r, RemoteToReactor hash m₁ c₁.conn_id.remote c₁.conn_id.idx
      = some r := ⟨_, List.get?_eq_get hlt₁⟩
  have hs₂ : ∃ r, RemoteToReactor hash m₂ c₂.conn_id.remote c₂.conn_id.idx
      = some r := ⟨_, List.get?_eq_get hlt₂⟩
  obtain ⟨r₁, hr₁⟩ := hs₁
  obtain ⟨r₂, hr₂⟩ := hs₂
  exact ⟨⟨r₁, hr₁, by simp [QueueOutboundCall, hr₁, hbroken]⟩,
         ⟨r₂, hr₂, by simp [QueueOutboundCall, hr₂, hok]⟩⟩

/-- C3 witness: on the broken messenger a call to address 7 is failed via
the scheduled reactor task with the `NetworkError` status; on the fresh
messenger the same call is queued on the selected reactor. -/
theorem C3_outbound_call_routing_witness :
    (∃ r, RemoteToReactor (fun e => e.address) mBroken
        { address := 7, port := 9 } 0 = some r ∧
      QueueOutboundCall (fun e => e.address) mBroken
          { conn_id := { remote := { address := 7, port := 9 }, idx := 0 } }
        = OutboundOutcome.scheduledFailTask r
            (Status.networkError "TEST: Connectivity is broken")) ∧
    (∃ r, RemoteToReactor (fun e => e.address) mEx
        { address := 7, port := 9 } 0 = some r ∧
      QueueOutboundCall (fun e => e.address) mEx
          { conn_id := { remote := { address := 7, port := 9 }, idx := 0 } }
        = OutboundOutcome.queuedOnReactor r) :=
  C3_outbound_call_routing (fun e => e.address) mBroken mEx
    { conn_id := { remote := { address := 7, port := 9 }, idx := 0 } }
    { conn_id := { remote := { address := 7, port := 9 }, idx := 0 } }
    (by decide) (by decide) (by decide) (by decide)

/-- C7: the claim promises a no-op return for every unknown id, but the
code opens with `CHECK_NE(task_id, -1)`: for the (unknown, never
registrable) id -1 the process aborts instead of returning. -/
theorem C7_counterexample :
    taskLookup mEx.scheduled_tasks (-1) = none ∧
    AbortOnReactor mEx (-1) ≠ (mEx, AbortOutcome.noop) := by
  decide

/-- C7 (amended): for every task id other than the sentinel -1,
`AbortOnReactor` aborts a registered task with the Aborted status and
removes it from the map (so a second abort of the same id misses), and is
a state-preserving no-op for an unknown id; for id -1 the `CHECK` aborts
the process instead of returning. -/
theorem C7_abort_on_reactor (m₁ m₂ : Messenger) (id₁ id₂ : Int)
    (t : DelayedTask)
    (h₁ : id₁ ≠ -1) (hfound : taskLookup m₁.scheduled_tasks id₁ = some t)
    (h₂ : id₂ ≠ -1) (hmiss : taskLookup m₂.scheduled_tasks id₂ = none) :
    (AbortOnReactor m₁ id₁ =
      ({ m₁ with scheduled_tasks := taskErase m₁.scheduled_tasks id₁ },
       AbortOutcome.abortedTask t (Status.aborted "Task aborted by messenger")) ∧
     taskLookup (AbortOnReactor m₁ id₁).1.scheduled_tasks id₁ = none) ∧
    AbortOnReactor m₂ id₂ = (m₂, AbortOutcome.noop) := by
  have hb₁ : (id₁ == -1) = false := by simpa using h₁
  have hb₂ : (id₂ == -1) = false := by simpa using h₂
  refine ⟨⟨?_, ?_⟩, ?_⟩
  · simp [AbortOnReactor, hb₁, hfound]
  · simp [AbortOnReactor, hb₁, hfound, taskLookup_taskErase]
  · simp [AbortOnReactor, hb₂, hmiss]

/-- C7 witness: aborting task 0 on the messenger holding it removes the
entry and delivers the Aborted status; aborting the unknown id 5 on the
fresh messenger is a no-op. -/
theorem C7_abort_on_reactor_witness :
    (AbortOnReactor mTask 0 =
      ({ mTask with scheduled_tasks := taskErase mTask.scheduled_tasks 0 },
       AbortOutcome.abortedTask { id := 0 }
         (Status.aborted "Task aborted by messenger")) ∧
     taskLookup (AbortOnReactor mTask 0).1.scheduled_tasks 0 = none) ∧
    AbortOnReactor mEx 5 = (mEx, AbortOutcome.noop) :=
  C7_abort_on_reactor mTask mEx 0 5 { id := 0 }
    (by decide) (by decide) (by decide) (by decide)

/-- Once `closing_` is set, any number of further `Shutdown()` calls
leave the state untouched and run no shutdown work. -/
theorem shutdownTimes_closed (m : Messenger) (hcl : m.closing = true)
    (n : Nat) : shutdownTimes m n = (m, 0) := by
  induction n with
  | zero => rfl
  | succ k ih => simp [shutdownTimes, Shutdown, hcl, ih]

/-- C2: the first `Shutdown()` call sets `closing`, clears the service
registry, detaches the acceptor and runs the full shutdown sequence —
shutting down the acceptor (when present), every reactor, the scheduler
and the IO thread pool, then joining every reactor and the pool; any
later call observes `closing` already set, returns at once with the state
unchanged and no actions; hence any serialized sequence of n ≥ 1 calls
(the lock serializes the check-and-set of `closing_`) runs exactly one
full shutdown sequence, and every call returns. -/
theorem C2_shutdown_idempotent (m : Messenger) (n : Nat)
    (hcl : m.closing = false) (hn : 1 ≤ n) :
    ((Shutdown m).1.closing = true ∧
     (Shutdown m).1.rpc_services = [] ∧
     (Shutdown m).1.acceptorPresent = false ∧
     (m.acceptorPresent = true →
        ShutdownAction.acceptorShutdown ∈ (Shutdown m).2) ∧
     (∀ r ∈ m.reactors, ShutdownAction.reactorShutdown r.idx ∈ (Shutdown m).2 ∧
        ShutdownAction.reactorJoin r.idx ∈ (Shutdown m).2) ∧
     ShutdownAction.schedulerShutdown ∈ (Shutdown m).2 ∧
     ShutdownAction.ioThreadPoolShutdown ∈ (Shutdown m).2 ∧
     ShutdownAction.ioThreadPoolJoin ∈ (Shutdown m).2) ∧
    Shutdown (Shutdown m).1 = ((Shutdown m).1, []) ∧
    (shutdownTimes m n).2 = 1 := by
  refine ⟨⟨?_, ?_, ?_, ?_, ?_, ?_, ?_, ?_⟩, ?_, ?_⟩
  · simp [Shutdown, hcl]
  · simp [Shutdown, hcl]
  · simp [Shutdown, hcl]
  · intro ha; simp [Shutdown, hcl, ha]
  · intro r hr
    constructor <;> simp [Shutdown, hcl] <;>
      exact ⟨r, hr, rfl⟩
  · simp [Shutdown, hcl]
  · simp [Shutdown, hcl]
  · simp [Shutdown, hcl]
  · simp [Shutdown, hcl]
  · obtain ⟨k, rfl⟩ : ∃ k, n = k + 1 := ⟨n - 1, by omega⟩
    have hclosed : (Shutdown m).1.closing = true := by simp [Shutdown, hcl]
    have hne : (Shutdown m).2.isEmpty = false := by
      simp [Shutdown, hcl, List.isEmpty_eq_true]
    simp [shutdownTimes, hne, shutdownTimes_closed (Shutdown m).1 hclosed k]

/-- C2 witness: two serialized shutdown calls on the concrete messenger —
the first runs the full sequence, the second is a no-op, and the pair
performs exactly one full shutdown. -/
theorem C2_shutdown_idempotent_witness :
    (((Shutdown mEx).1.closing = true ∧
      (Shutdown mEx).1.rpc_services = [] ∧
      (Shutdown mEx).1.acceptorPresent = false ∧
      (mEx.acceptorPresent = true →
         ShutdownAction.acceptorShutdown ∈ (Shutdown mEx).2) ∧
      (∀ r ∈ mEx.reactors,
         ShutdownAction.reactorShutdown r.idx ∈ (Shutdown mEx).2 ∧
         ShutdownAction.reactorJoin r.idx ∈ (Shutdown mEx).2) ∧
      ShutdownAction.schedulerShutdown ∈ (Shutdown mEx).2 ∧
      ShutdownAction.ioThreadPoolShutdown ∈ (Shutdown mEx).2 ∧
      ShutdownAction.ioThreadPoolJoin ∈ (Shutdown mEx).2) ∧
     Shutdown (Shutdown mEx).1 = ((Shutdown mEx).1, []) ∧
     (shutdownTimes mEx 2).2 = 1) :=
  C2_shutdown_idempotent mEx 2 (by decide) (by decide)

/-- The reactor-choice loop on a list ending in `r`: the last iteration
wins when its thread matches, otherwise the choice over the prefix
stands. -/
theorem pickCurrentReactor_concat (l : List Reactor) (r : Reactor) (t : Nat) :
    pickCurrentReactor (l ++ [r]) t =
      if r.tid == t then some r else pickCurrentReactor l t := by
  unfold pickCurrentReactor
  rw [List.foldl_append]
  rfl

/-- Soundness of the choice loop: a chosen reactor is one of the list and
its thread is the current thread. -/
theorem pickCurrentReactor_spec (l : List Reactor) (t : Nat) :
    ∀ r, pickCurrentReactor l t = some r → r ∈ l ∧ r.tid = t := by
  induction l using List.reverseRecOn with
  | nil => intro r h; simp [pickCurrentReactor] at h
  | append_singleton l' x ih =>
    intro r h
    rw [pickCurrentReactor_concat] at h
    cases hx : x.tid == t with
    | true =>
      rw [hx] at h
      simp only [if_true] at h
      cases h
      exact ⟨List.mem_append_right l' (List.mem_singleton.mpr rfl),
        by simpa using hx⟩
    | false =>
      rw [hx] at h
      simp only [Bool.false_eq_true, if_false] at h
      obtain ⟨hm, ht⟩ := ih r h
      exact ⟨List.mem_append_left _ hm, ht⟩

/-- Completeness of the choice loop: when some reactor's thread is the
current thread, the loop chooses one. -/
theorem pickCurrentReactor_some (l : List Reactor) (t : Nat) (r : Reactor)
    (hr : r ∈ l) (ht : r.tid = t) :
    ∃ x, pickCurrentReactor l t = some x := by
  induction l using List.reverseRecOn with
  | nil => simp at hr
  | append_singleton l' x ih =>
    rw [pickCurrentReactor_concat]
    cases hx : x.tid == t with
    | true => exact ⟨x, by simp⟩
    | false =>
      have hne : x.tid ≠ t := by simpa using hx
      have hm : r ∈ l' := by
        rcases List.mem_append.mp hr with h | h
        · exact h
        · rw [List.mem_singleton.mp h] at ht; exact absurd ht hne
      obtain ⟨y, hy⟩ := ih hm
      exact ⟨y, by simp [hx, hy]⟩

/-- When no reactor runs on the current thread, the choice loop yields
none. -/
theorem pickCurrentReactor_none (l : List Reactor) (t : Nat)
    (h : ∀ r ∈ l, r.tid ≠ t) : pickCurrentReactor l t = none := by
  induction l using List.reverseRecOn with
  | nil => rfl
  | append_singleton l' x ih =>
    rw [pickCurrentReactor_concat]
    have hx : (x.tid == t) = false := by
      simpa using h x (List.mem_append_right l' (List.mem_singleton.mpr rfl))
    rw [hx]
    simp only [Bool.false_eq_true, if_false]
    exact ih fun r hr => h r (List.mem_append_left _ hr)

/-- C8: invoked from a reactor thread (state `m`, whose reactor `rc` runs
on the calling thread `curTid`, reactor threads being pairwise distinct),
`ScheduleOnReactor` schedules on that same reactor; invoked from a
non-reactor thread (state `mOther`), it schedules on the reactor indexed
by the random draw modulo the reactor count.  With an owning messenger
reference the task receives the id drawn from the monotonic counter —
fresh, i.e. absent from the scheduled-task map beforehand — is registered
in the map, and is cancellable via `AbortOnReactor`; without an owner the
state is untouched and no registration happens. -/
theorem C8_schedule_on_reactor (m mOther : Messenger) (rc : Reactor)
    (curTid randv curTid' randv' : Nat)
    (hnodup : (m.reactors.map Reactor.tid).Nodup)
    (hmem : rc ∈ m.reactors) (htid : rc.tid = curTid)
    (hbound : ∀ p ∈ m.scheduled_tasks, p.1 < m.next_task_id)
    (hpos : 0 ≤ m.next_task_id)
    (hnone : ∀ r ∈ mOther.reactors, r.tid ≠ curTid')
    (hN : 1 ≤ mOther.reactors.length) :
    ((ScheduleOnReactor m curTid randv true).2.2 = some rc ∧
     (ScheduleOnReactor m curTid randv true).2.1 = m.next_task_id ∧
     (ScheduleOnReactor m curTid randv true).1.next_task_id
        = m.next_task_id + 1 ∧
     taskLookup m.scheduled_tasks m.next_task_id = none ∧
     taskLookup (ScheduleOnReactor m curTid randv true).1.scheduled_tasks
        m.next_task_id = some { id := m.next_task_id } ∧
     (AbortOnReactor (ScheduleOnReactor m curTid randv true).1
        m.next_task_id).2
        = AbortOutcome.abortedTask { id := m.next_task_id }
            (Status.aborted "Task aborted by messenger")) ∧
    ((ScheduleOnReactor mOther curTid' randv' false).2.2
        = mOther.reactors.get? (randv' % mOther.reactors.length) ∧
     ((ScheduleOnReactor mOther curTid' randv' false).2.2).isSome = true ∧
     (ScheduleOnReactor mOther curTid' randv' false).1 = mOther ∧
     (ScheduleOnReactor mOther curTid' randv' false).2.1 = 0) := by
  obtain ⟨x, hx⟩ := pickCurrentReactor_some m.reactors curTid rc hmem htid
  obtain ⟨hxm, hxt⟩ := pickCurrentReactor_spec m.reactors curTid x hx
  have hxr : x = rc :=
    List.inj_on_of_nodup_map hnodup hxm hmem (by rw [hxt, htid])
  subst hxr
  have hfresh : taskLookup m.scheduled_tasks m.next_task_id = none :=
    taskLookup_none_of_bound _ _ hbound
  have hneg : (m.next_task_id == -1) = false := by
    simp only [beq_eq_false_iff_ne, ne_eq]
    omega
  have hpick : pickCurrentReactor mOther.reactors curTid' = none :=
    pickCurrentReactor_none _ _ hnone
  refine ⟨⟨?_, ?_, ?_, hfresh, ?_, ?_⟩, ?_, ?_, ?_, ?_⟩
  · simp [ScheduleOnReactor, hx]
  · simp [ScheduleOnReactor]
  · simp [ScheduleOnReactor]
  · simp [ScheduleOnReactor, taskLookup]
  · simp [ScheduleOnReactor, AbortOnReactor, hneg, taskLookup]
  · simp [ScheduleOnReactor, hpick]
  · have hlt : randv' % mOther.reactors.length < mOther.reactors.length :=
      Nat.mod_lt _ (by omega)
    simp [ScheduleOnReactor, hpick, List.getElem?_eq_getElem hlt]
  · simp [ScheduleOnReactor]
  · simp [ScheduleOnReactor]

/-- C8 witness: from reactor thread 101 the task lands on reactor 1 with
fresh id 1 registered and abortable; from foreign thread 999 it lands on
reactor 4 mod 3 = 1 of the construction order with no registration. -/
theorem C8_schedule_on_reactor_witness :
    ((ScheduleOnReactor mTask 101 0 true).2.2 = some { idx := 1, tid := 101 } ∧
     (ScheduleOnReactor mTask 101 0 true).2.1 = mTask.next_task_id ∧
     (ScheduleOnReactor mTask 101 0 true).1.next_task_id
        = mTask.next_task_id + 1 ∧
     taskLookup mTask.scheduled_tasks mTask.next_task_id = none ∧
     taskLookup (ScheduleOnReactor mTask 101 0 true).1.scheduled_tasks
        mTask.next_task_id = some { id := mTask.next_task_id } ∧
     (AbortOnReactor (ScheduleOnReactor mTask 101 0 true).1
        mTask.next_task_id).2
        = AbortOutcome.abortedTask { id := mTask.next_task_id }
            (Status.aborted "Task aborted by messenger")) ∧
    ((ScheduleOnReactor mEx 999 4 false).2.2
        = mEx.reactors.get? (4 % mEx.reactors.length) ∧
     ((ScheduleOnReactor mEx 999 4 false).2.2).isSome = true ∧
     (ScheduleOnReactor mEx 999 4 false).1 = mEx ∧
     (ScheduleOnReactor mEx 999 4 false).2.1 = 0) :=
  C8_schedule_on_reactor mTask mEx { idx := 1, tid := 101 } 101 0 999 4
    (by decide) (by decide) (by decide) (by decide) (by decide) (by decide)
    (by decide)

/-- Flipping a still-true slot to false decreases the true-count by
exactly one. -/
theorem count_true_set_false (l : List Bool) (i : Nat)
    (h : l.get? i = some true) :
    (l.set i false).count true + 1 = l.count true := by
  induction l generalizing i with
  | nil => simp at h
  | cons b rest ih =>
    cases i with
    | zero =>
      have hb : b = true := by simpa using h
      subst hb
      simp [List.count_cons]
    | succ n =>
      have hrec := ih n h
      simp only [List.set, List.count_cons]
      omega

/-- A list with no true entries reads false at every valid index. -/
theorem get?_false_of_count_zero (l : List Bool) (h : l.count true = 0)
    (i : Nat) (hi : i < l.length) : l.get? i = some false := by
  induction l generalizing i with
  | nil => simp at hi
  | cons b rest ih =>
    have hb : b = false := by
      cases b with
      | false => rfl
      | true => simp [List.count_cons] at h
    subst hb
    have hr : rest.count true = 0 := by simpa [List.count_cons] using h
    cases i with
    | zero => rfl
    | succ n =>
      simp only [List.length_cons] at hi
      simpa using ih hr n (by omega)

/-- Every rendezvous step preserves the latch invariant. -/
theorem breakInv_step {s t : BreakState} (hst : BreakStep s t)
    (hs : breakInv s) : breakInv t := by
  obtain ⟨h1, h2⟩ := hs
  cases hst with
  | exec i hi =>
    have hc := count_true_set_false s.pending i hi
    refine ⟨?_, fun hr => ?_⟩
    · show s.latch - 1 = (s.pending.set i false).count true
      omega
    · have h0 := h2 hr
      show s.latch - 1 = 0
      omega
  | ret h0 => exact ⟨h1, fun _ => h0⟩

/-- The latch invariant holds in every reachable rendezvous state. -/
theorem breakInv_reach {s t : BreakState}
    (h : Relation.ReflTransGen BreakStep s t) (hs : breakInv s) :
    breakInv t := by
  induction h with
  | refl => exact hs
  | tail _ hstep ih => exact breakInv_step hstep ih

/-- One rendezvous step keeps the number of drop-task slots. -/
theorem breakStep_length {s t : BreakState} (h : BreakStep s t) :
    t.pending.length = s.pending.length := by
  cases h with
  | exec i hi => simp
  | ret h0 => rfl

/-- Reachability keeps the number of drop-task slots. -/
theorem breakReach_length {s t : BreakState}
    (h : Relation.ReflTransGen BreakStep s t) :
    t.pending.length = s.pending.length := by
  induction h with
  | refl => rfl
  | tail _ hstep ih => rw [breakStep_length hstep, ih]

/-- C9: breaking connectivity with a not-yet-marked address creates a
countdown latch whose count equals the number of reactors and schedules
one drop task per reactor; in the rendezvous semantics, any state in
which the blocked caller has returned from `latch->Wait()` has every
reactor's drop task already executed — the break is visible to all
reactor threads before `BreakConnectivityWith` returns. -/
theorem C9_break_rendezvous (m : Messenger) (address : IpAddress)
    (s : BreakState)
    (hnew : m.broken_connectivity.contains address = false)
    (hreach : BreakReach (breakInit m.reactors.length) s)
    (hret : s.returned = true) :
    (BreakConnectivityWith m address).2 = some m.reactors.length ∧
    ∀ i < m.reactors.length, s.pending.get? i = some false := by
  constructor
  · have hmem : address ∉ m.broken_connectivity := by simpa using hnew
    simp [BreakConnectivityWith, hmem]
  · have hinv0 : breakInv (breakInit m.reactors.length) := by
      constructor
      · simp [breakInit, List.count_replicate_self]
      · intro hr
        simp [breakInit] at hr
    have hinv : breakInv s := breakInv_reach hreach hinv0
    have hlen : s.pending.length = m.reactors.length := by
      have h := breakReach_length hreach
      simpa [breakInit] using h
    have hzero : s.latch = 0 := hinv.2 hret
    have hcount : s.pending.count true = 0 := by
      have h1 := hinv.1
      omega
    intro i hi
    exact get?_false_of_count_zero s.pending hcount i (by omega)

/-- C9 witness: an explicit complete rendezvous on the three-reactor
messenger — reactors 0, 1, 2 execute their drop tasks, the latch reaches
zero, the caller returns, and every pending slot reads false. -/
theorem C9_break_rendezvous_witness :
    (BreakConnectivityWith mEx 7).2 = some mEx.reactors.length ∧
    ∀ i < mEx.reactors.length,
      ({ pending := [false, false, false], latch := 0,
         returned := true } : BreakState).pending.get? i = some false := by
  have step1 : BreakStep (breakInit 3)
      { pending := [false, true, true], latch := 2, returned := false } :=
    BreakStep.exec (breakInit 3) 0 rfl
  have step2 : BreakStep
      { pending := [false, true, true], latch := 2, returned := false }
      { pending := [false, false, true], latch := 1, returned := false } :=
    BreakStep.exec
      { pending := [false, true, true], latch := 2, returned := false } 1 rfl
  have step3 : BreakStep
      { pending := [false, false, true], latch := 1, returned := false }
      { pending := [false, false, false], latch := 0, returned := false } :=
    BreakStep.exec
      { pending := [false, false, true], latch := 1, returned := false } 2 rfl
  have step4 : BreakStep
      { pending := [false, false, false], latch := 0, returned := false }
      { pending := [false, false, false], latch := 0, returned := true } :=
    BreakStep.ret
      { pending := [false, false, false], latch := 0, returned := false } rfl
  have trace : BreakReach (breakInit mEx.reactors.length)
      { pending := [false, false, false], latch := 0, returned := true } :=
    (((Relation.ReflTransGen.single step1).tail step2).tail step3).tail step4
  exact C9_break_rendezvous mEx 7
    { pending := [false, false, false], latch := 0, returned := true }
    (by decide) trace rfl

end YbRpc
